import Mathlib

/-!
Verification development for the camino-sdks repository: a shallow embedding of
the request and response model layer, the HTTP error mapping contract, and the
chaining workflow of src/examples/python-api-chaining.py (context, query and
journey composed with client side POI scoring and selection).

Modelling conventions: Python floats are embedded as rational numbers, machine
level dictionaries become structures, and fallible calls return Except values.
The SDK package itself (camino_ai.models and the client) is not present in the
source tree, only its tests and callers are; those definitions are modelled
from the specification and are marked as such in their doc comments.
-/

/-- Coordinate model: both lat and lon are required fields with no defaults. -/
structure Coordinate where
  lat : ℚ
  lon : ℚ
deriving DecidableEq, Repr

/-- Wire form of a Coordinate: a JSON object in which either field may be
absent. Used to state the serialization round trip and validation laws. -/
structure CoordinateJson where
  lat : Option ℚ := none
  lon : Option ℚ := none
deriving DecidableEq, Repr

/-- Validation failure signal raised before any network call when a required
model field is absent or mistyped. -/
structure ValidationError where
  message : String
deriving DecidableEq, Repr

/-- Modelled from the spec: serializing a Coordinate emits both fields. -/
def Coordinate.serialize (c : Coordinate) : CoordinateJson :=
  { lat := some c.lat, lon := some c.lon }

/-- Modelled from the spec: constructing a Coordinate from a wire object
validates that both required fields are present, failing with a
ValidationError kind signal otherwise. -/
def parseCoordinate (j : CoordinateJson) : Except ValidationError Coordinate :=
  match j.lat, j.lon with
  | some la, some lo => .ok { lat := la, lon := lo }
  | none, _ => .error { message := "field required: lat" }
  | some _, none => .error { message := "field required: lon" }

/-- The closed set of typed API error kinds in the SDK error hierarchy. -/
inductive ErrorKind
  | authentication
  | rateLimit
  | api
deriving DecidableEq, Repr

/-- Typed API error: AuthenticationError and RateLimitError are the kinds of
the shared APIError shape carrying an HTTP status code, a message, and for
rate limiting an optional retry after value in seconds. -/
structure APIError where
  kind : ErrorKind
  message : String
  statusCode : Nat
  retryAfter : Option Nat := none
deriving DecidableEq, Repr

/-- An HTTP response as seen by the transport layer: numeric status, the
optional Retry-After header, the optional message field of the parsed body,
and the raw body text. -/
structure HttpResponse where
  status : Nat
  retryAfterHeader : Option String := none
  bodyMessage : Option String := none
  rawBody : String := ""
deriving DecidableEq, Repr

/-- Modelled from the spec: every error message includes the server provided
message field when present, falling back to the raw body text. -/
def errorMessageOf (resp : HttpResponse) : String :=
  match resp.bodyMessage with
  | some m => m
  | none => resp.rawBody

/-- The numeric value of a decimal digit character, if it is one. -/
def charDigit (c : Char) : Option Nat :=
  if ('0':Char) ≤ c ∧ c ≤ ('9':Char) then some (c.toNat - ('0':Char).toNat) else none

/-- Accumulating decimal parse over a character list. -/
def parseNatAux : List Char → Nat → Option Nat
  | [], acc => some acc
  | c :: cs, acc =>
    match charDigit c with
    | some d => parseNatAux cs (acc * 10 + d)
    | none => none

/-- Modelled from the spec: parsing a header value as integer seconds,
yielding nothing on a malformed or empty value. -/
def parseNatHeader (s : String) : Option Nat :=
  match s.data with
  | [] => none
  | cs => parseNatAux cs 0

/-- Modelled from the spec: the transport error mapping of the SDK client
(whose source is not under src). HTTP 401 maps to AuthenticationError,
HTTP 429 maps to RateLimitError carrying the Retry-After header value in
integer seconds (absent when the header is missing), and any other non 2xx
status maps to a generic APIError carrying the status code. -/
def handleResponse (resp : HttpResponse) : Except APIError String :=
  if 200 ≤ resp.status ∧ resp.status < 300 then
    .ok resp.rawBody
  else if resp.status = 401 then
    .error { kind := .authentication, message := errorMessageOf resp, statusCode := 401 }
  else if resp.status = 429 then
    .error { kind := .rateLimit, message := errorMessageOf resp, statusCode := 429,
             retryAfter := resp.retryAfterHeader.bind parseNatHeader }
  else
    .error { kind := .api, message := errorMessageOf resp, statusCode := resp.status }

/-- The string s contains t as a contiguous substring. -/
def strContains (s t : String) : Prop :=
  ∃ p q : List Char, s.data = p ++ t.data ++ q

/-- A value of a serialized query parameter. -/
inductive ParamValue
  | str (s : String)
  | num (q : ℚ)
  | nat (n : Nat)
  | bool (b : Bool)
deriving DecidableEq, Repr

/-- Modelled from the spec: the canonical QueryRequest model (the SDK models
module is not under src). Defaults are limit 20, ranking on, offset 0,
answer mode off, and mode basic. -/
structure QueryRequest where
  query : String
  lat : Option ℚ := none
  lon : Option ℚ := none
  radius : Option ℚ := none
  rank : Bool := true
  limit : Nat := 20
  offset : Nat := 0
  answer : Bool := false
  mode : String := "basic"
deriving DecidableEq, Repr

/-- Wrapping a bare query string into the minimal request model with the
declared defaults. -/
def QueryRequest.ofQuery (q : String) : QueryRequest :=
  { query := q }

/-- Serialization of one optional numeric parameter: absent fields are
omitted from the parameter list. -/
def optionalParam (key : String) : Option ℚ → List (String × ParamValue)
  | some v => [(key, ParamValue.num v)]
  | none => []

/-- Modelled from the spec: GET style serialization of a QueryRequest as an
ordered parameter list, including the declared defaults even when the caller
did not set them, in the deterministic order query, lat, lon, radius, rank,
limit, offset, answer, mode. -/
def QueryRequest.toParams (r : QueryRequest) : List (String × ParamValue) :=
  [("query", ParamValue.str r.query)] ++
    optionalParam "lat" r.lat ++ optionalParam "lon" r.lon ++ optionalParam "radius" r.radius ++
    [("rank", ParamValue.bool r.rank), ("limit", ParamValue.nat r.limit),
     ("offset", ParamValue.nat r.offset), ("answer", ParamValue.bool r.answer),
     ("mode", ParamValue.str r.mode)]

/-- Modelled from the spec: the RelationshipResponse model of the SDK (not
under src), carrying the precise total distance in kilometers together with
time and transport facets. -/
structure RelationshipResponse where
  feasible : Option Bool := none
  total_distance_km : Option ℚ := none
  total_time_minutes : Option ℚ := none
  transport_mode : Option String := none
deriving DecidableEq, Repr

/-- Modelled from the spec: the backward compatibility accessor expressing the
total distance in meters rather than kilometers. -/
def RelationshipResponse.distance (r : RelationshipResponse) : Option ℚ :=
  r.total_distance_km.map (fun k => k * 1000)

/-- Enhanced POI information from query results, from the POIDetails dataclass
of src/examples/python-api-chaining.py (the untyped query_details metadata
mapping is carried opaquely by the Python code and never read by the
selection logic, so it is omitted here). -/
structure POIDetails where
  name : String
  coordinate : Coordinate
  address : String := ""
  category : String := ""
  confidence : ℚ := 0
  context_distance : ℚ := 0
deriving DecidableEq, Repr

/-- The sort key of select_best_pois, written exactly as in the source:
confidence times 0.7 plus (1000 minus the distance capped at 1000) divided by
1000 times 0.3. -/
def codeScore (x : POIDetails) : ℚ :=
  x.confidence * (7/10) + (1000 - min x.context_distance 1000) / 1000 * (3/10)

/-- Descending comparison on the code sort key; with a stable sort this is the
behavior of the Python sorted call with reverse set. -/
def poiLE (a b : POIDetails) : Prop := codeScore b ≤ codeScore a

instance : DecidableRel poiLE :=
  fun a b => inferInstanceAs (Decidable (codeScore b ≤ codeScore a))

instance : IsTotal POIDetails poiLE :=
  ⟨fun a b => le_total (codeScore b) (codeScore a)⟩

instance : IsTrans POIDetails poiLE :=
  ⟨fun _ _ _ h1 h2 => le_trans h2 h1⟩

/-- The greedy diversity loop of select_best_pois: walk the sorted candidates,
stop once max_stops are selected, and take a candidate when its category is
new or its confidence exceeds 0.9. -/
def selectLoop (maxStops : Nat) :
    List POIDetails → List POIDetails → List String → List POIDetails
  | [], selected, _ => selected
  | p :: rest, selected, used =>
    if maxStops ≤ selected.length then selected
    else if p.category ∉ used ∨ (9:ℚ)/10 < p.confidence then
      selectLoop maxStops rest (selected ++ [p]) (p.category :: used)
    else selectLoop maxStops rest selected used

/-- Embedding of select_best_pois from src/examples/python-api-chaining.py:
stable descending sort by the code score, then the greedy diversity loop. -/
def select_best_pois (pois : List POIDetails) (maxStops : Nat) : List POIDetails :=
  selectLoop maxStops (List.insertionSort poiLE pois) [] []

/-- The selection score exactly as the specification words it:
0.7 times confidence plus 0.3 times (1 minus min(distance, cap)/cap) with the
cap at 1000 meters. -/
def specScore (x : POIDetails) : ℚ :=
  7/10 * x.confidence + 3/10 * (1 - min x.context_distance 1000 / 1000)

/-- Descending comparison on the specification score. -/
def specLE (a b : POIDetails) : Prop := specScore b ≤ specScore a

instance : DecidableRel specLE :=
  fun a b => inferInstanceAs (Decidable (specScore b ≤ specScore a))

/-- The selector as the specification describes it: sort descending by the
spec score and greedily select with the category diversity override. -/
def selectBestPoisSpec (pois : List POIDetails) (maxStops : Nat) : List POIDetails :=
  selectLoop maxStops (List.insertionSort specLE pois) [] []

/-- First candidate of the example pool: category A with confidence 0.95. -/
def poiA95 : POIDetails :=
  { name := "a1", coordinate := { lat := 0, lon := 0 }, category := "A",
    confidence := 19/20, context_distance := 100 }

/-- Second candidate of the example pool: category A with confidence 0.5. -/
def poiA50 : POIDetails :=
  { name := "a2", coordinate := { lat := 0, lon := 1 }, category := "A",
    confidence := 1/2, context_distance := 100 }

/-- Third candidate of the example pool: category B with confidence 0.4. -/
def poiB40 : POIDetails :=
  { name := "b1", coordinate := { lat := 1, lon := 0 }, category := "B",
    confidence := 2/5, context_distance := 100 }

/-- Transport mode enum of the SDK. -/
inductive TransportMode
  | driving
  | walking
  | cycling
  | transit
deriving DecidableEq, Repr

/-- The wire value of a transport mode. -/
def TransportMode.value : TransportMode → String
  | .driving => "driving"
  | .walking => "walking"
  | .cycling => "cycling"
  | .transit => "transit"

/-- One query result as consumed by the chaining workflow. -/
structure QueryResultModel where
  name : String
  coordinate : Coordinate
  address : Option String := none
  category : Option String := none
  confidence : Option ℚ := none
deriving DecidableEq, Repr

/-- A query response: the ordered result list. -/
structure QueryResponseModel where
  results : List QueryResultModel
deriving DecidableEq, Repr

/-- Modelled from the spec: a context response carries an area description and
a total count; it has no nearby attribute, so the hasattr probe of the
workflow always fails and the discovered name list starts empty. -/
structure ContextResponseModel where
  area_description : String := ""
  total_places_found : Nat := 0
deriving DecidableEq, Repr

/-- A journey waypoint: a location plus a purpose label. -/
structure WaypointModel where
  location : Coordinate
  purpose : String
deriving DecidableEq, Repr

/-- Journey constraints as built by the workflow: transport mode value, time
budget string, preference tags. -/
structure JourneyConstraintsModel where
  transport : String
  time_budget : String
  preferences : List String
deriving DecidableEq, Repr

/-- A journey request: ordered waypoints plus constraints. -/
structure JourneyRequestModel where
  waypoints : List WaypointModel
  constraints : JourneyConstraintsModel
deriving DecidableEq, Repr

/-- One route segment of a journey response. -/
structure SegmentModel where
  distance : ℚ
  duration : ℚ
  instructions : String
deriving DecidableEq, Repr

/-- A journey response: totals, segments and the optional optimized order. -/
structure JourneyResponseModel where
  total_distance : ℚ
  total_duration : ℚ
  segments : List SegmentModel
  optimized_order : Option (List Nat) := none
deriving DecidableEq, Repr

/-- The environment of one workflow invocation: each endpoint call of the
client either returns a typed response or raises a typed APIError. The query
oracle is indexed by the POI name that determines the request built for it,
and the relationship oracle directly yields the distance the workflow reads
from its response. -/
structure WorkflowOracles where
  contextResult : Except APIError ContextResponseModel
  queryResult : String → Except APIError QueryResponseModel
  relationshipDistance : Coordinate → Except APIError ℚ
  journeyResult : JourneyRequestModel → Except APIError JourneyResponseModel

/-- The journey summary dictionary built on the success path of
plan_optimal_journey. -/
structure JourneySummary where
  total_distance : ℚ
  total_duration : ℚ
  transport_mode : String
  stops : Nat
  selected_pois : List POIDetails
  segments : List SegmentModel
  optimized_order : Option (List Nat)

/-- The result dictionary of run_complete_workflow: the workflow summary
fields plus the discovered types, the POI details and the journey plan. A
journey plan carrying an error key is an error value here, and
journey_planned mirrors the Python check that no error key is present. -/
structure WorkflowResult where
  poi_types_discovered : Nat
  total_pois_found : Nat
  journey_planned : Bool
  discovered_poi_types : List String
  poi_details : List POIDetails
  journey_plan : Except String JourneySummary

/-- True exactly when an Except value is an ok value. -/
def exceptOk {ε α : Type} : Except ε α → Bool
  | .ok _ => true
  | .error _ => false

/-- The default fallback POI types used when context succeeds but yields no
names and no categories were supplied. -/
def defaultPoiTypes : List String :=
  ["restaurants", "cafes", "attractions", "shopping"]

/-- The fixed fallback category list returned when the context call raises. -/
def fallbackPoiTypes : List String :=
  ["restaurants", "cafes"]

/-- Embedding of discover_area_pois: call context, derive POI names (always
empty here since the response has no nearby attribute, then the category or
default fallbacks), and on APIError degrade to the fixed fallback list. -/
def discover_area_pois (o : WorkflowOracles) (categories : Option (List String)) :
    Except APIError (List String) :=
  match o.contextResult with
  | .ok _ctx =>
    let poiNames : List String := []
    .ok (if poiNames.isEmpty then
          match categories with
          | some cs => if cs.isEmpty then defaultPoiTypes
                       else cs.map (fun c => c ++ "s near me")
          | none => defaultPoiTypes
         else poiNames)
  | .error _e => .ok fallbackPoiTypes

/-- Python style or on an optional string: an absent or empty value falls back
to the default. -/
def pythonOr (s : Option String) (d : String) : String :=
  match s with
  | some v => if v = "" then d else v
  | none => d

/-- The POI details built from one query response inside query_poi_details:
the per result relationship call supplies the distance, with a catch all
falling back to distance zero. -/
def poisFromResponse (o : WorkflowOracles) (poiName : String)
    (resp : QueryResponseModel) : List POIDetails :=
  resp.results.map fun r =>
    { name := r.name,
      coordinate := r.coordinate,
      address := pythonOr r.address "",
      category := pythonOr r.category poiName,
      confidence := r.confidence.getD 0,
      context_distance :=
        match o.relationshipDistance r.coordinate with
        | .ok d => d
        | .error _ => 0 }

/-- The accumulation loop of query_poi_details: query each POI name in order,
skipping names whose query raises an APIError. -/
def queryPoiDetailsList (o : WorkflowOracles) : List String → List POIDetails
  | [] => []
  | poiName :: rest =>
    (match o.queryResult poiName with
     | .error _ => []
     | .ok resp => poisFromResponse o poiName resp) ++ queryPoiDetailsList o rest

/-- Embedding of query_poi_details: the loop catches every per name APIError,
so the step as a whole cannot raise. -/
def query_poi_details (o : WorkflowOracles) (poiNames : List String) :
    Except APIError (List POIDetails) :=
  .ok (queryPoiDetailsList o poiNames)

/-- The journey request built by plan_optimal_journey: a synthetic start
waypoint, one waypoint per selected POI tagged visit plus its category, and
the fixed constraints of the source. -/
def buildJourneyRequest (startLocation : Coordinate) (selectedPois : List POIDetails)
    (transportMode : TransportMode) : JourneyRequestModel :=
  { waypoints :=
      { location := startLocation, purpose := "start" } ::
        selectedPois.map (fun p =>
          { location := p.coordinate, purpose := "visit:" ++ p.category }),
    constraints :=
      { transport := transportMode.value, time_budget := "2h",
        preferences := ["scenic", "safe"] } }

/-- Embedding of plan_optimal_journey: an empty pool yields an error carrying
plan, otherwise the best POIs are selected, the journey endpoint is called,
and an APIError from it is converted into an error carrying plan. -/
def plan_optimal_journey (o : WorkflowOracles) (startLocation : Coordinate)
    (pois : List POIDetails) (transportMode : TransportMode) (maxStops : Nat) :
    Except APIError (Except String JourneySummary) :=
  if pois.isEmpty then
    .ok (.error "No POIs available for journey planning")
  else
    match o.journeyResult
        (buildJourneyRequest startLocation (select_best_pois pois maxStops) transportMode) with
    | .ok jr =>
      .ok (.ok
        { total_distance := jr.total_distance,
          total_duration := jr.total_duration,
          transport_mode := transportMode.value,
          stops := (select_best_pois pois maxStops).length,
          selected_pois := select_best_pois pois maxStops,
          segments := jr.segments,
          optimized_order := jr.optimized_order })
    | .error e =>
      .ok (.error ("Journey planning failed: " ++ e.message))

/-- Embedding of run_complete_workflow: discover, query and plan in sequence.
An error value at this level would be an exception escaping the workflow
boundary; the theorems show this never happens. -/
def run_complete_workflow (o : WorkflowOracles) (location : Coordinate)
    (categories : Option (List String)) (transportMode : TransportMode)
    (maxStops : Nat) : Except APIError WorkflowResult :=
  match discover_area_pois o categories with
  | .error e => .error e
  | .ok poiNames =>
    match query_poi_details o poiNames with
    | .error e => .error e
    | .ok poiDetails =>
      match plan_optimal_journey o location poiDetails transportMode maxStops with
      | .error e => .error e
      | .ok journeyPlan =>
        .ok { poi_types_discovered := poiNames.length,
              total_pois_found := poiDetails.length,
              journey_planned := exceptOk journeyPlan,
              discovered_poi_types := poiNames,
              poi_details := poiDetails,
              journey_plan := journeyPlan }

/-- The code sort key and the specification score agree on every candidate. -/
lemma codeScore_eq_specScore (x : POIDetails) : codeScore x = specScore x := by
  unfold codeScore specScore
  ring

/-- The two descending comparisons agree. -/
lemma poiLE_iff_specLE (a b : POIDetails) : poiLE a b ↔ specLE a b := by
  unfold poiLE specLE
  rw [codeScore_eq_specScore, codeScore_eq_specScore]

/-- Ordered insertion only depends on the comparison as a relation. -/
lemma orderedInsert_congr {α : Type} {r s : α → α → Prop}
    [DecidableRel r] [DecidableRel s] (hrs : ∀ a b, r a b ↔ s a b) (a : α) :
    ∀ l : List α, List.orderedInsert r a l = List.orderedInsert s a l
  | [] => rfl
  | b :: l => by
    simp only [List.orderedInsert]
    by_cases hr : r a b
    · rw [if_pos hr, if_pos ((hrs a b).mp hr)]
    · rw [if_neg hr, if_neg (fun hs2 => hr ((hrs a b).mpr hs2)),
        orderedInsert_congr hrs a l]

/-- Insertion sort only depends on the comparison as a relation. -/
lemma insertionSort_congr {α : Type} {r s : α → α → Prop}
    [DecidableRel r] [DecidableRel s] (hrs : ∀ a b, r a b ↔ s a b) :
    ∀ l : List α, List.insertionSort r l = List.insertionSort s l
  | [] => rfl
  | a :: l => by
    simp only [List.insertionSort]
    rw [insertionSort_congr hrs l, orderedInsert_congr hrs a]

/-- The greedy loop never grows the selection past max_stops. -/
lemma selectLoop_length (maxStops : Nat) (l : List POIDetails) :
    ∀ sel used, sel.length ≤ maxStops →
      (selectLoop maxStops l sel used).length ≤ maxStops := by
  induction l with
  | nil => intro sel used h; simpa [selectLoop] using h
  | cons p rest ih =>
    intro sel used h
    by_cases h1 : maxStops ≤ sel.length
    · simp only [selectLoop]; rw [if_pos h1]; exact h
    · by_cases h2 : p.category ∉ used ∨ (9:ℚ)/10 < p.confidence
      · simp only [selectLoop]; rw [if_neg h1, if_pos h2]
        exact ih (sel ++ [p]) (p.category :: used)
          (by simp only [List.length_append, List.length_singleton]; omega)
      · simp only [selectLoop]; rw [if_neg h1, if_neg h2]; exact ih sel used h

/-- The greedy loop output is the accumulator followed by a sublist of the
remaining candidates. -/
lemma selectLoop_split (maxStops : Nat) (l : List POIDetails) :
    ∀ sel used, ∃ t, selectLoop maxStops l sel used = sel ++ t ∧ t.Sublist l := by
  induction l with
  | nil =>
    intro sel used
    exact ⟨[], by simp [selectLoop], List.nil_sublist _⟩
  | cons p rest ih =>
    intro sel used
    by_cases h1 : maxStops ≤ sel.length
    · refine ⟨[], ?_, List.nil_sublist _⟩
      simp only [selectLoop]; rw [if_pos h1]; simp
    · by_cases h2 : p.category ∉ used ∨ (9:ℚ)/10 < p.confidence
      · obtain ⟨t, ht, hs⟩ := ih (sel ++ [p]) (p.category :: used)
        refine ⟨p :: t, ?_, hs.cons₂ p⟩
        simp only [selectLoop]; rw [if_neg h1, if_pos h2, ht]
        simp
      · obtain ⟨t, ht, hs⟩ := ih sel used
        refine ⟨t, ?_, hs.cons p⟩
        simp only [selectLoop]; rw [if_neg h1, if_neg h2, ht]

/-- C1: the POI selector assigns every candidate the score
0.7 * confidence + 0.3 * (1 - min(distance, 1000)/1000), sorts candidates
descending by that score, and greedily selects up to max_stops candidates,
skipping a candidate whose category was already selected unless its
confidence exceeds 0.9; on the pool with categories A at 0.95, A at 0.5 and
B at 0.4 (equal distances) and max_stops 2, the selection is exactly the
A 0.95 item followed by the B 0.4 item. -/
theorem C1_poi_selection :
    (∀ (pois : List POIDetails) (maxStops : Nat),
      select_best_pois pois maxStops = selectBestPoisSpec pois maxStops) ∧
    select_best_pois [poiA95, poiA50, poiB40] 2 = [poiA95, poiB40] := by
  constructor
  · intro pois maxStops
    unfold select_best_pois selectBestPoisSpec
    rw [insertionSort_congr poiLE_iff_specLE pois]
  · norm_num [select_best_pois, selectLoop, List.insertionSort, List.orderedInsert,
      poiLE, codeScore, poiA95, poiA50, poiB40]
    decide

/-- C10: for every candidate pool and max_stops at least one, the selector
returns at most max_stops candidates drawn from the pool with no candidate
selected twice, and on a non empty pool the selection is non empty and starts
with a candidate of maximal score. -/
theorem C10_selection_bounds (pois : List POIDetails) (maxStops : Nat)
    (hms : 1 ≤ maxStops) :
    (select_best_pois pois maxStops).length ≤ maxStops ∧
    (select_best_pois pois maxStops).Subperm pois ∧
    (pois ≠ [] → ∃ p t, select_best_pois pois maxStops = p :: t ∧ p ∈ pois ∧
      ∀ q ∈ pois, codeScore q ≤ codeScore p) := by
  refine ⟨?_, ?_, ?_⟩
  · exact selectLoop_length maxStops _ [] [] (by simp)
  · obtain ⟨t, ht, hsub⟩ := selectLoop_split maxStops (List.insertionSort poiLE pois) [] []
    have hbp : select_best_pois pois maxStops = t := by
      unfold select_best_pois
      rw [ht, List.nil_append]
    rw [hbp]
    exact hsub.subperm.trans (List.perm_insertionSort poiLE pois).subperm
  · intro hne
    cases hsort : List.insertionSort poiLE pois with
    | nil =>
      exfalso
      have hperm := List.perm_insertionSort poiLE pois
      rw [hsort] at hperm
      exact hne hperm.symm.eq_nil
    | cons p rest =>
      have hstep : select_best_pois pois maxStops = selectLoop maxStops rest [p] [p.category] := by
        unfold select_best_pois
        rw [hsort]
        simp only [selectLoop]
        rw [if_neg (by simp only [List.length_nil]; omega),
          if_pos (Or.inl (List.not_mem_nil _)), List.nil_append]
      obtain ⟨t, ht, _⟩ := selectLoop_split maxStops rest [p] [p.category]
      refine ⟨p, t, by rw [hstep, ht]; rfl, ?_, ?_⟩
      · have hp : p ∈ List.insertionSort poiLE pois := by
          rw [hsort]; exact List.mem_cons_self p rest
        exact (List.perm_insertionSort poiLE pois).mem_iff.mp hp
      · intro q hq
        have hq2 : q ∈ p :: rest := by
          rw [← hsort]
          exact (List.perm_insertionSort poiLE pois).mem_iff.mpr hq
        have hsorted : List.Sorted poiLE (p :: rest) := by
          rw [← hsort]
          exact List.sorted_insertionSort poiLE pois
        rcases List.mem_cons.mp hq2 with h1 | h2
        · rw [h1]
        · exact List.rel_of_sorted_cons hsorted q h2

/-- Witness for C10 at the concrete example pool with max_stops 2. -/
theorem C10_selection_bounds_witness :
    (select_best_pois [poiA95, poiA50, poiB40] 2).length ≤ 2 ∧
    (select_best_pois [poiA95, poiA50, poiB40] 2).Subperm [poiA95, poiA50, poiB40] ∧
    (∃ p t, select_best_pois [poiA95, poiA50, poiB40] 2 = p :: t ∧
      p ∈ [poiA95, poiA50, poiB40] ∧
      ∀ q ∈ [poiA95, poiA50, poiB40], codeScore q ≤ codeScore p) :=
  ⟨(C10_selection_bounds [poiA95, poiA50, poiB40] 2 (by decide)).1,
   (C10_selection_bounds [poiA95, poiA50, poiB40] 2 (by decide)).2.1,
   (C10_selection_bounds [poiA95, poiA50, poiB40] 2 (by decide)).2.2
     (List.cons_ne_nil _ _)⟩

/-- C2: a QueryRequest constructed from only a query string has limit 20 and
mode basic, and its GET serialization includes these declared defaults even
though the caller did not set them, in the deterministic parameter order
query, rank, limit, offset, answer, mode. -/
theorem C2_query_request_defaults (q : String) :
    (QueryRequest.ofQuery q).limit = 20 ∧
    (QueryRequest.ofQuery q).mode = "basic" ∧
    (QueryRequest.ofQuery q).toParams =
      [("query", ParamValue.str q), ("rank", ParamValue.bool true),
       ("limit", ParamValue.nat 20), ("offset", ParamValue.nat 0),
       ("answer", ParamValue.bool false), ("mode", ParamValue.str "basic")] :=
  ⟨rfl, rfl, rfl⟩

/-- C5: serializing a valid Coordinate and parsing the result yields an equal
value, and a wire object missing lat, or missing lon, fails to parse with a
ValidationError kind signal. -/
theorem C5_coordinate_roundtrip :
    (∀ c : Coordinate, parseCoordinate c.serialize = .ok c) ∧
    (∀ la : ℚ, ∃ e, parseCoordinate { lat := some la, lon := none } = .error e) ∧
    (∀ lo : ℚ, ∃ e, parseCoordinate { lat := none, lon := some lo } = .error e) :=
  ⟨fun _c => rfl, fun _la => ⟨_, rfl⟩, fun _lo => ⟨_, rfl⟩⟩

/-- C9: whenever total_distance_km is set, the backward compatibility accessor
distance returns exactly that value times 1000, the same length in meters;
at 1.235 kilometers it yields 1235 meters. -/
theorem C9_distance_meters :
    (∀ (r : RelationshipResponse) (k : ℚ), r.total_distance_km = some k →
      r.distance = some (k * 1000)) ∧
    RelationshipResponse.distance { total_distance_km := some (1235/1000) } = some 1235 := by
  constructor
  · intro r k hk
    unfold RelationshipResponse.distance
    rw [hk]
    rfl
  · unfold RelationshipResponse.distance
    norm_num

/-- Witness for C9: the general law applied at 1.235 kilometers. -/
theorem C9_distance_meters_witness :
    RelationshipResponse.distance { total_distance_km := some (1235/1000) } =
      some (1235/1000 * 1000) :=
  C9_distance_meters.1 { total_distance_km := some (1235/1000) } (1235/1000) rfl

/-- C6: a 401 response makes the call raise AuthenticationError with status
code 401 and a message containing the server provided message field. -/
theorem C6_auth_error_mapping (resp : HttpResponse) (m : String)
    (h401 : resp.status = 401) (hm : resp.bodyMessage = some m) :
    ∃ e, handleResponse resp = .error e ∧ e.kind = ErrorKind.authentication ∧
      e.statusCode = 401 ∧ strContains e.message m := by
  refine ⟨{ kind := .authentication, message := errorMessageOf resp, statusCode := 401 },
    ?_, rfl, rfl, ?_⟩
  · unfold handleResponse
    rw [h401]
    norm_num
  · refine ⟨[], [], ?_⟩
    simp [errorMessageOf, hm]

/-- Witness for C6 at a concrete 401 response. -/
theorem C6_auth_error_mapping_witness :
    ∃ e, handleResponse
        { status := 401, bodyMessage := some "Invalid API key" } = .error e ∧
      e.kind = ErrorKind.authentication ∧ e.statusCode = 401 ∧
      strContains e.message "Invalid API key" :=
  C6_auth_error_mapping { status := 401, bodyMessage := some "Invalid API key" }
    "Invalid API key" rfl rfl

/-- C7: a 429 response with header Retry-After 60 makes the call raise
RateLimitError with status code 429 and retry_after 60, and with the header
missing the raised retry_after is absent. -/
theorem C7_rate_limit_mapping (resp : HttpResponse) (h429 : resp.status = 429) :
    (resp.retryAfterHeader = some "60" →
      ∃ e, handleResponse resp = .error e ∧ e.kind = ErrorKind.rateLimit ∧
        e.statusCode = 429 ∧ e.retryAfter = some 60) ∧
    (resp.retryAfterHeader = none →
      ∃ e, handleResponse resp = .error e ∧ e.kind = ErrorKind.rateLimit ∧
        e.statusCode = 429 ∧ e.retryAfter = none) := by
  constructor
  · intro hh
    refine ⟨{ kind := .rateLimit, message := errorMessageOf resp, statusCode := 429, retryAfter := resp.retryAfterHeader.bind parseNatHeader }, ?_, rfl, rfl, ?_⟩
    · unfold handleResponse
      rw [h429]
      norm_num
    · rw [hh]
      rfl
  · intro hh
    refine ⟨{ kind := .rateLimit, message := errorMessageOf resp, statusCode := 429, retryAfter := resp.retryAfterHeader.bind parseNatHeader }, ?_, rfl, rfl, ?_⟩
    · unfold handleResponse
      rw [h429]
      norm_num
    · rw [hh]
      rfl

/-- A concrete rate limited response carrying the Retry-After header. -/
def resp429WithHeader : HttpResponse :=
  { status := 429, retryAfterHeader := some "60", bodyMessage := some "Rate limit exceeded" }

/-- A concrete rate limited response without the Retry-After header. -/
def resp429NoHeader : HttpResponse :=
  { status := 429, bodyMessage := some "Rate limit exceeded" }

/-- Witness for C7 at concrete 429 responses with and without the header. -/
theorem C7_rate_limit_mapping_witness :
    (∃ e, handleResponse resp429WithHeader = .error e ∧
      e.kind = ErrorKind.rateLimit ∧ e.statusCode = 429 ∧ e.retryAfter = some 60) ∧
    (∃ e, handleResponse resp429NoHeader = .error e ∧
      e.kind = ErrorKind.rateLimit ∧ e.statusCode = 429 ∧ e.retryAfter = none) :=
  ⟨(C7_rate_limit_mapping resp429WithHeader rfl).1 rfl,
   (C7_rate_limit_mapping resp429NoHeader rfl).2 rfl⟩

/-- C8: a non 2xx response with status other than 401 and 429 makes the call
raise a generic APIError carrying that status code and a message containing
the server provided message field. -/
theorem C8_generic_error_mapping (resp : HttpResponse) (m : String)
    (h2xx : ¬(200 ≤ resp.status ∧ resp.status < 300))
    (h401 : resp.status ≠ 401) (h429 : resp.status ≠ 429)
    (hm : resp.bodyMessage = some m) :
    ∃ e, handleResponse resp = .error e ∧ e.kind = ErrorKind.api ∧
      e.statusCode = resp.status ∧ strContains e.message m := by
  refine ⟨{ kind := .api, message := errorMessageOf resp, statusCode := resp.status },
    ?_, rfl, rfl, ?_⟩
  · unfold handleResponse
    rw [if_neg h2xx, if_neg h401, if_neg h429]
  · refine ⟨[], [], ?_⟩
    simp [errorMessageOf, hm]

/-- Witness for C8 at a concrete 500 response. -/
theorem C8_generic_error_mapping_witness :
    ∃ e, handleResponse
        { status := 500, bodyMessage := some "Internal server error" } = .error e ∧
      e.kind = ErrorKind.api ∧ e.statusCode = 500 ∧
      strContains e.message "Internal server error" :=
  C8_generic_error_mapping { status := 500, bodyMessage := some "Internal server error" }
    "Internal server error" (by decide) (by decide) (by decide) rfl

/-- Discovery cannot raise: it converts any context APIError into the fixed
fallback list and wraps every success path in an ok value. -/
lemma discover_area_pois_isOk (o : WorkflowOracles) (categories : Option (List String)) :
    ∃ names, discover_area_pois o categories = .ok names := by
  unfold discover_area_pois
  cases o.contextResult
  · exact ⟨_, rfl⟩
  · exact ⟨_, rfl⟩

/-- When every successful query carries zero results, the detail list built by
the query step is empty. -/
lemma queryPoiDetailsList_eq_nil (o : WorkflowOracles)
    (h : ∀ name resp, o.queryResult name = .ok resp → resp.results = [])
    (names : List String) : queryPoiDetailsList o names = [] := by
  induction names with
  | nil => rfl
  | cons n ns ih =>
    unfold queryPoiDetailsList
    cases hq : o.queryResult n with
    | error e => simpa using ih
    | ok resp =>
      have hres : resp.results = [] := h n resp hq
      simp [poisFromResponse, hres, ih]

/-- Journey planning cannot raise: the empty pool and the journey APIError are
both converted into an error carrying plan inside an ok value. -/
lemma plan_optimal_journey_isOk (o : WorkflowOracles) (startLocation : Coordinate)
    (pois : List POIDetails) (transportMode : TransportMode) (maxStops : Nat) :
    ∃ p, plan_optimal_journey o startLocation pois transportMode maxStops = .ok p := by
  unfold plan_optimal_journey
  by_cases h : pois.isEmpty = true
  · rw [if_pos h]
    exact ⟨_, rfl⟩
  · rw [if_neg h]
    cases o.journeyResult
        (buildJourneyRequest startLocation (select_best_pois pois maxStops) transportMode)
    · exact ⟨_, rfl⟩
    · exact ⟨_, rfl⟩

/-- Reduction of the workflow once the discovery and planning outcomes are
fixed; the query step is total by construction. -/
lemma run_complete_workflow_eq (o : WorkflowOracles) (location : Coordinate)
    (categories : Option (List String)) (transportMode : TransportMode)
    (maxStops : Nat) (names : List String) (jp : Except String JourneySummary)
    (hn : discover_area_pois o categories = .ok names)
    (hp : plan_optimal_journey o location (queryPoiDetailsList o names)
      transportMode maxStops = .ok jp) :
    run_complete_workflow o location categories transportMode maxStops =
      .ok { poi_types_discovered := names.length,
            total_pois_found := (queryPoiDetailsList o names).length,
            journey_planned := exceptOk jp,
            discovered_poi_types := names,
            poi_details := queryPoiDetailsList o names,
            journey_plan := jp } := by
  unfold run_complete_workflow query_poi_details
  rw [hn]
  simp only [hp]

/-- C3: the full workflow never raises past its boundary: for every oracle
environment the composed call returns an ok structured result; and when the
query step returns zero results for every category, the returned journey plan
carries the no POIs error and the journey planned flag is false rather than
an exception being raised. -/
theorem C3_workflow_never_raises (o : WorkflowOracles) (location : Coordinate)
    (categories : Option (List String)) (transportMode : TransportMode)
    (maxStops : Nat) :
    (∃ r, run_complete_workflow o location categories transportMode maxStops = .ok r) ∧
    ((∀ name resp, o.queryResult name = .ok resp → resp.results = []) →
      ∃ r, run_complete_workflow o location categories transportMode maxStops = .ok r ∧
        r.journey_plan = .error "No POIs available for journey planning" ∧
        r.journey_planned = false) := by
  constructor
  · obtain ⟨names, hn⟩ := discover_area_pois_isOk o categories
    obtain ⟨jp, hp⟩ := plan_optimal_journey_isOk o location
      (queryPoiDetailsList o names) transportMode maxStops
    exact ⟨_, run_complete_workflow_eq o location categories transportMode maxStops
      names jp hn hp⟩
  · intro h
    obtain ⟨names, hn⟩ := discover_area_pois_isOk o categories
    have hnil : queryPoiDetailsList o names = [] := queryPoiDetailsList_eq_nil o h names
    have hp : plan_optimal_journey o location (queryPoiDetailsList o names)
        transportMode maxStops = .ok (.error "No POIs available for journey planning") := by
      rw [hnil]
      rfl
    exact ⟨_, run_complete_workflow_eq o location categories transportMode maxStops
      names _ hn hp, rfl, rfl⟩

/-- An oracle environment whose query calls all succeed with zero results. -/
def emptyQueryOracles : WorkflowOracles :=
  { contextResult := .ok {},
    queryResult := fun _ => .ok { results := [] },
    relationshipDistance := fun _ => .ok 0,
    journeyResult := fun _ => .error { kind := .api, message := "unused", statusCode := 500 } }

/-- Witness for C3: on an environment with an empty POI pool the workflow
returns a structured failure result. -/
theorem C3_workflow_never_raises_witness :
    ∃ r, run_complete_workflow emptyQueryOracles { lat := 0, lon := 0 } none
        TransportMode.walking 5 = .ok r ∧
      r.journey_plan = .error "No POIs available for journey planning" ∧
      r.journey_planned = false :=
  (C3_workflow_never_raises emptyQueryOracles { lat := 0, lon := 0 } none
    TransportMode.walking 5).2 (fun name resp h => by cases h; rfl)

/-- C4: if the context call raises any APIError, the discovery step does not
propagate the error but returns the fixed fallback category list, and the
workflow continues with the query step on exactly that list. -/
theorem C4_context_fallback (o : WorkflowOracles) (location : Coordinate)
    (categories : Option (List String)) (transportMode : TransportMode)
    (maxStops : Nat) (e : APIError) (h : o.contextResult = .error e) :
    discover_area_pois o categories = .ok ["restaurants", "cafes"] ∧
    ∃ r, run_complete_workflow o location categories transportMode maxStops = .ok r ∧
      r.discovered_poi_types = ["restaurants", "cafes"] ∧
      r.poi_details = queryPoiDetailsList o ["restaurants", "cafes"] := by
  have hd : discover_area_pois o categories = .ok ["restaurants", "cafes"] := by
    unfold discover_area_pois
    rw [h]
    rfl
  refine ⟨hd, ?_⟩
  obtain ⟨jp, hp⟩ := plan_optimal_journey_isOk o location
    (queryPoiDetailsList o ["restaurants", "cafes"]) transportMode maxStops
  exact ⟨_, run_complete_workflow_eq o location categories transportMode maxStops
    ["restaurants", "cafes"] jp hd hp, rfl, rfl⟩

/-- An oracle environment whose context call raises an APIError. -/
def contextFailureOracles : WorkflowOracles :=
  { contextResult := .error { kind := .api, message := "context failed", statusCode := 500 },
    queryResult := fun _ => .ok { results := [] },
    relationshipDistance := fun _ => .ok 0,
    journeyResult := fun _ => .error { kind := .api, message := "unused", statusCode := 500 } }

/-- Witness for C4: with a failing context call the discovery step returns the
fallback categories and the workflow keeps going. -/
theorem C4_context_fallback_witness :
    discover_area_pois contextFailureOracles none = .ok ["restaurants", "cafes"] ∧
    ∃ r, run_complete_workflow contextFailureOracles { lat := 0, lon := 0 } none
        TransportMode.walking 5 = .ok r ∧
      r.discovered_poi_types = ["restaurants", "cafes"] ∧
      r.poi_details = queryPoiDetailsList contextFailureOracles ["restaurants", "cafes"] :=
  C4_context_fallback contextFailureOracles { lat := 0, lon := 0 } none
    TransportMode.walking 5 { kind := .api, message := "context failed", statusCode := 500 } rfl
